import Mathlib

/-
Shallow embedding of `src/python/cudf/cudf/options.py`, a process-wide
named-option registry.

Modelling choices:
  * The module-level dict `_OPTIONS` becomes an explicit association list
    `Registry α` threaded through every operation (explicit state passing).
  * A Python exception becomes the error component of the returned pair:
    every operation returns `Except Exn result × Registry α`, where the
    second component is the registry state at the moment the operation
    returns or raises.  `Exn.UnknownOptionError` stands for the `KeyError`
    raised by `_OPTIONS[name]` on an absent key; `Exn.InvalidValueError`
    (resp. `Exn.InvalidDefaultError`) stands for the exception a validator
    raises when `set_option` (resp. `_register_option`) calls it on a value
    it rejects.
  * A validator is a Python callable invoked purely for effect - both call
    sites (`validator(default_value)` in `_register_option` and
    `option.validator(val)` in `set_option`) discard its return value, and
    the docstring contract is that it "should raise an error if the value
    is invalid".  We embed a validator as `α → Bool`, where `true` means
    the call returns without raising and `false` means it raises.
  * Values are kept at an abstract type `α`; the two options the module
    actually registers hold Python ints, embedded as `Int`.
  * `print` in `describe_option` is modelled by returning the printed
    string; the Python `Optional[str]` parameter is split into the two
    branches of the source `if`: `describe_option` (a name was given) and
    `describe_option_all` (the `name is None` branch).
-/

deriving instance DecidableEq for Except

/-- Python exceptions surfaced by the module, under the names the
specification gives them. -/
inductive Exn where
  | UnknownOptionError (name : String)
  | InvalidValueError
  | InvalidDefaultError
deriving DecidableEq, Repr

/-- The `Option` dataclass: `default`, `value`, `description`, `validator`. -/
structure cudf.Option (α : Type) where
  default : α
  value : α
  description : String
  validator : α → Bool

/-- The module-level dict `_OPTIONS : Dict[str, Option]`, as an association
list in insertion order. -/
abbrev Registry (α : Type) : Type := List (String × cudf.Option α)

/-- Dict read `_OPTIONS[name]`: the entry stored under `name`, if any. -/
def getEntry {α : Type} (r : Registry α) (name : String) :
    Option (cudf.Option α) :=
  match r with
  | [] => none
  | p :: rest => if p.1 = name then some p.2 else getEntry rest name

/-- Dict write `_OPTIONS[name] = opt`: replace the entry stored under
`name` in place, or append a new entry when the key is absent. -/
def setEntry {α : Type} (r : Registry α) (name : String)
    (opt : cudf.Option α) : Registry α :=
  match r with
  | [] => [(name, opt)]
  | p :: rest =>
    if p.1 = name then (name, opt) :: rest else p :: setEntry rest name opt

/-- `_register_option(name, default_value, description, validator)`: run
`validator(default_value)` (raising propagates), then store
`Option(default_value, default_value, description, validator)`. -/
def _register_option {α : Type} (name : String) (default_value : α)
    (description : String) (validator : α → Bool) (r : Registry α) :
    Except Exn Unit × Registry α :=
  if validator default_value then
    (Except.ok (),
      setEntry r name ⟨default_value, default_value, description, validator⟩)
  else
    (Except.error Exn.InvalidDefaultError, r)

/-- `get_option(name)`: return `_OPTIONS[name].value`. -/
def get_option {α : Type} (name : String) (r : Registry α) :
    Except Exn α × Registry α :=
  match getEntry r name with
  | some opt => (Except.ok opt.value, r)
  | none => (Except.error (Exn.UnknownOptionError name), r)

/-- `set_option(name, val)`: look up `_OPTIONS[name]`, run
`option.validator(val)` (raising propagates before any mutation), then
assign `option.value = val`. -/
def «set_option» {α : Type} (name : String) (val : α) (r : Registry α) :
    Except Exn Unit × Registry α :=
  match getEntry r name with
  | none => (Except.error (Exn.UnknownOptionError name), r)
  | some opt =>
    if opt.validator val then
      (Except.ok (), setEntry r name { opt with value := val })
    else
      (Except.error Exn.InvalidValueError, r)

/-- `_build_option_description(name, opt)`: the f-string
`"name:\n\topt.description\n\t[Default: ...] [Current: ...]"`. -/
def _build_option_description {α : Type} [ToString α] (name : String)
    (opt : cudf.Option α) : String :=
  name ++ ":\n" ++ "\t" ++ opt.description ++ "\n" ++
    "\t[Default: " ++ toString opt.default ++ "] [Current: " ++
    toString opt.value ++ "]"

/-- `describe_option(name)` with a name given (the `else` branch): the
string it prints, or the `KeyError` from `_OPTIONS[name]`. -/
def describe_option {α : Type} [ToString α] (name : String)
    (r : Registry α) : Except Exn String × Registry α :=
  match getEntry r name with
  | some opt => (Except.ok (_build_option_description name opt), r)
  | none => (Except.error (Exn.UnknownOptionError name), r)

/-- `describe_option()` with `name is None`: joins the description of every
registered option with newlines, in registry iteration order. -/
def describe_option_all {α : Type} [ToString α] (r : Registry α) :
    String × Registry α :=
  (String.intercalate "\n"
    (r.map fun p => _build_option_description p.1 p.2), r)

/-- The boolean the source lambda `lambda x: x in [32, 64]` computes and
returns. -/
def mem_32_64 (x : Int) : Bool :=
  x == 32 || x == 64

/-- `lambda x: x in [32, 64]` as the validator callable the module
registers: evaluating the membership test never raises, and both call
sites discard the returned boolean, so as an effectful validator the call
always succeeds. -/
def bitwidth_lambda (x : Int) : Bool :=
  let _ := mem_32_64 x
  true

/-- Description string of `"default_integer_bitwidth"` (the four adjacent
Python string literals concatenated). -/
def default_integer_bitwidth_description : String :=
  "Default integer bitwidth when inferring integer column or scalars." ++
  "Influences integer column bitwidth for csv, json readers if unspecified " ++
  "and integer column bitwidth constructed from python scalar and lists. " ++
  "Valid values are 32 or 64."

/-- Description string of `"default_float_bitwidth"`. -/
def default_float_bitwidth_description : String :=
  "Default float bitwidth when inferring float column or scalars." ++
  "Influences float column bitwidth for csv, json readers if unspecified " ++
  "and float column bitwidth constructed from python scalar and lists. " ++
  "Valid values are 32 or 64."

/-- The registry after module load: `_OPTIONS = {}` followed by the two
`_register_option` calls at the bottom of the file. -/
def _OPTIONS_initial : Registry Int :=
  (_register_option "default_float_bitwidth" 64
    default_float_bitwidth_description bitwidth_lambda
    (_register_option "default_integer_bitwidth" 64
      default_integer_bitwidth_description bitwidth_lambda []).2).2

/-- The registry invariant of the specification: every stored value passes
its own entry's validator (the validator call does not raise on it). -/
def RegistryInvariant {α : Type} (r : Registry α) : Prop :=
  ∀ p ∈ r, p.2.validator p.2.value = true

instance {α : Type} (r : Registry α) : Decidable (RegistryInvariant r) := by
  unfold RegistryInvariant
  infer_instance

/-- A small registry used to instantiate the generic theorems: one entry
whose validator is the membership predicate itself (a validator that can
actually reject, as the docstring contract intends). -/
def sample_registry : Registry Int :=
  [("width", ⟨64, 64, "sample width option", mem_32_64⟩)]

/-- Registry state of the specification scenario after
`set_option("default_integer_bitwidth", 32)`. -/
def scenario_after_set_32 : Registry Int :=
  («set_option» "default_integer_bitwidth" 32 _OPTIONS_initial).2

/-- Registry state of the specification scenario after the subsequent
`set_option("default_integer_bitwidth", 16)`. -/
def scenario_after_set_16 : Registry Int :=
  («set_option» "default_integer_bitwidth" 16 scenario_after_set_32).2

/-- The text `describe_option("default_integer_bitwidth")` prints at the
end of the scenario (empty if it were to raise). -/
def scenario_describe_output : String :=
  ((describe_option "default_integer_bitwidth" scenario_after_set_16).1).toOption.getD ""

/-- Occurrence of `pat` as a contiguous run inside `s`, on character
lists. -/
def listContains (pat s : List Char) : Bool :=
  match s with
  | [] => pat.isEmpty
  | _ :: rest => pat.isPrefixOf s || listContains pat rest

/-- Occurrence of `pat` as a substring of `s`. -/
def strContains (s pat : String) : Bool :=
  listContains pat.toList s.toList

theorem getEntry_setEntry_self {α : Type} (r : Registry α) (name : String)
    (opt : cudf.Option α) : getEntry (setEntry r name opt) name = some opt := by
  induction r with
  | nil => simp [setEntry, getEntry]
  | cons p rest ih =>
    by_cases h : p.1 = name
    · simp [setEntry, getEntry, h]
    · simp [setEntry, getEntry, h, ih]

theorem getEntry_setEntry_of_ne {α : Type} (r : Registry α) (n m : String)
    (opt : cudf.Option α) (h : m ≠ n) :
    getEntry (setEntry r n opt) m = getEntry r m := by
  induction r with
  | nil => simp [setEntry, getEntry, Ne.symm h]
  | cons p rest ih =>
    by_cases hp : p.1 = n
    · have hm : ¬ p.1 = m := by
        rw [hp]
        exact Ne.symm h
      simp [setEntry, getEntry, hp, hm, Ne.symm h]
    · simp [setEntry, getEntry, hp, ih]

theorem mem_setEntry {α : Type} {r : Registry α} {n : String}
    {opt : cudf.Option α} {p : String × cudf.Option α}
    (hp : p ∈ setEntry r n opt) : p = (n, opt) ∨ p ∈ r := by
  induction r with
  | nil => simpa [setEntry] using hp
  | cons q rest ih =>
    by_cases h : q.1 = n
    · rcases (by simpa [setEntry, h] using hp : p = (n, opt) ∨ p ∈ rest) with h1 | h2
      · exact Or.inl h1
      · exact Or.inr (List.mem_cons_of_mem q h2)
    · rcases (by simpa [setEntry, h] using hp : p = q ∨ p ∈ setEntry rest n opt) with h1 | h2
      · exact Or.inr (h1 ▸ List.mem_cons_self q rest)
      · rcases ih h2 with h3 | h4
        · exact Or.inl h3
        · exact Or.inr (List.mem_cons_of_mem q h4)

theorem registryInvariant_setEntry {α : Type} {r : Registry α} {n : String}
    {opt : cudf.Option α} (h : RegistryInvariant r)
    (hopt : opt.validator opt.value = true) :
    RegistryInvariant (setEntry r n opt) := by
  intro p hp
  rcases mem_setEntry hp with h1 | h2
  · rw [h1]
    exact hopt
  · exact h p h2

/-- C1: for a registered name `n` and a candidate `v` the validator
rejects (its call raises), `set_option(n, v)` fails with
`InvalidValueError`, the registry is left exactly as it was, and a
subsequent `get_option(n)` returns the value stored before the call. -/
theorem set_option_rejected_no_mutation {α : Type} (n : String) (v : α)
    (r : Registry α) (opt : cudf.Option α)
    (hfind : getEntry r n = some opt) (hrej : opt.validator v = false) :
    «set_option» n v r = (Except.error Exn.InvalidValueError, r) ∧
    (get_option n («set_option» n v r).2).1 = Except.ok opt.value := by
  have hset : «set_option» n v r = (Except.error Exn.InvalidValueError, r) := by
    simp [«set_option», hfind, hrej]
  exact ⟨hset, by simp [hset, get_option, hfind]⟩

/-- Concrete instance of `set_option_rejected_no_mutation` on a registry
holding one option whose validator is the membership predicate. -/
theorem set_option_rejected_no_mutation_witness :
    «set_option» "width" 16 sample_registry =
      (Except.error Exn.InvalidValueError, sample_registry) ∧
    (get_option "width" ((«set_option» "width" 16 sample_registry).2)).1 =
      Except.ok 64 :=
  set_option_rejected_no_mutation "width" 16 sample_registry
    ⟨64, 64, "sample width option", mem_32_64⟩ rfl rfl

/-- C2: the registry invariant (every stored value passes its own entry's
validator) holds of the initial registry and is preserved by
`_register_option`, `get_option`, `set_option` and both branches of
`describe_option`. -/
theorem registry_invariant_preserved {α : Type} [ToString α]
    (r : Registry α) (n : String) (d v : α) (ds : String) (vd : α → Bool)
    (h : RegistryInvariant r) :
    RegistryInvariant (_register_option n d ds vd r).2 ∧
    RegistryInvariant (get_option n r).2 ∧
    RegistryInvariant ((«set_option» n v r).2) ∧
    RegistryInvariant ((describe_option n r).2) ∧
    RegistryInvariant (describe_option_all r).2 ∧
    RegistryInvariant _OPTIONS_initial := by
  refine ⟨?_, ?_, ?_, ?_, ?_, ?_⟩
  · by_cases hd : vd d = true
    · simpa [_register_option, hd] using
        registryInvariant_setEntry h (by simpa using hd)
    · simpa [_register_option, hd] using h
  · cases hg : getEntry r n <;> simpa [get_option, hg] using h
  · cases hg : getEntry r n with
    | none => simpa [«set_option», hg] using h
    | some opt =>
      by_cases hv : opt.validator v = true
      · simpa [«set_option», hg, hv] using
          registryInvariant_setEntry h (by simpa using hv)
      · simpa [«set_option», hg, hv] using h
  · cases hg : getEntry r n <;> simpa [describe_option, hg] using h
  · simpa [describe_option_all] using h
  · decide

/-- Concrete instance of `registry_invariant_preserved` on the sample
registry. -/
theorem registry_invariant_preserved_witness :
    RegistryInvariant
      (_register_option "width" (64 : Int) "sample width option" mem_32_64
        sample_registry).2 ∧
    RegistryInvariant (get_option "width" sample_registry).2 ∧
    RegistryInvariant ((«set_option» "width" (32 : Int) sample_registry).2) ∧
    RegistryInvariant ((describe_option "width" sample_registry).2) ∧
    RegistryInvariant (describe_option_all sample_registry).2 ∧
    RegistryInvariant _OPTIONS_initial :=
  registry_invariant_preserved sample_registry "width" 64 32
    "sample width option" mem_32_64 (by decide)

set_option maxRecDepth 20000 in
/-- C3: what the code actually does on the specification scenario.  After
module initialization, `get_option("default_integer_bitwidth")` returns
64 and `set_option(..., 32)` succeeds with a subsequent get returning 32,
as the claim states; but `set_option(..., 16)` also SUCCEEDS (the
registered validator `lambda x: x in [32, 64]` returns a boolean that the
caller discards instead of raising), the subsequent get returns 16 rather
than 32, and the description text reports `Current: 16`, not
`Current: 32`. -/
theorem bitwidth_scenario_code_behavior :
    (get_option "default_integer_bitwidth" _OPTIONS_initial).1 =
      Except.ok 64 ∧
    («set_option» "default_integer_bitwidth" 32 _OPTIONS_initial).1 =
      Except.ok () ∧
    (get_option "default_integer_bitwidth" scenario_after_set_32).1 =
      Except.ok 32 ∧
    («set_option» "default_integer_bitwidth" 16 scenario_after_set_32).1 =
      Except.ok () ∧
    (get_option "default_integer_bitwidth" scenario_after_set_16).1 =
      Except.ok 16 ∧
    (describe_option "default_integer_bitwidth" scenario_after_set_16).1 =
      Except.ok scenario_describe_output ∧
    strContains scenario_describe_output "default_integer_bitwidth" = true ∧
    strContains scenario_describe_output
      default_integer_bitwidth_description = true ∧
    strContains scenario_describe_output "Default: 64" = true ∧
    strContains scenario_describe_output "Current: 16" = true ∧
    strContains scenario_describe_output "Current: 32" = false := by
  decide

/-- C4: for a name absent from the registry, `get_option`, `set_option`
and `describe_option` all fail with `UnknownOptionError` naming it, and
each surfaces the failure to the caller with the registry unchanged. -/
theorem unknown_option_errors {α : Type} [ToString α] (m : String) (v : α)
    (r : Registry α) (habs : getEntry r m = none) :
    get_option m r = (Except.error (Exn.UnknownOptionError m), r) ∧
    «set_option» m v r = (Except.error (Exn.UnknownOptionError m), r) ∧
    describe_option m r = (Except.error (Exn.UnknownOptionError m), r) := by
  refine ⟨?_, ?_, ?_⟩ <;> simp [get_option, «set_option», describe_option, habs]

/-- Concrete instance of `unknown_option_errors` on the module's initial
registry and a name it never registers. -/
theorem unknown_option_errors_witness :
    get_option "no_such" _OPTIONS_initial =
      (Except.error (Exn.UnknownOptionError "no_such"), _OPTIONS_initial) ∧
    «set_option» "no_such" (0 : Int) _OPTIONS_initial =
      (Except.error (Exn.UnknownOptionError "no_such"), _OPTIONS_initial) ∧
    describe_option "no_such" _OPTIONS_initial =
      (Except.error (Exn.UnknownOptionError "no_such"), _OPTIONS_initial) :=
  unknown_option_errors "no_such" 0 _OPTIONS_initial rfl

/-- C5: write-then-read consistency: when the validator accepts `v`,
`set_option(n, v)` succeeds and a subsequent `get_option(n)` returns
`v`. -/
theorem set_then_get {α : Type} (n : String) (v : α) (r : Registry α)
    (opt : cudf.Option α) (hfind : getEntry r n = some opt)
    (hacc : opt.validator v = true) :
    («set_option» n v r).1 = Except.ok () ∧
    (get_option n («set_option» n v r).2).1 = Except.ok v := by
  have hset : «set_option» n v r =
      (Except.ok (), setEntry r n { opt with value := v }) := by
    simp [«set_option», hfind, hacc]
  exact ⟨by simp [hset], by simp [hset, get_option, getEntry_setEntry_self]⟩

/-- Concrete instance of `set_then_get` on the sample registry. -/
theorem set_then_get_witness :
    ((«set_option» "width" (32 : Int) sample_registry).1 = Except.ok ()) ∧
    (get_option "width" ((«set_option» "width" (32 : Int)
      sample_registry).2)).1 = Except.ok 32 :=
  set_then_get "width" 32 sample_registry
    ⟨64, 64, "sample width option", mem_32_64⟩ rfl rfl

/-- C6: when the validator accepts the default, registration succeeds and
`get_option(n)` immediately afterwards returns that default. -/
theorem get_after_register_default {α : Type} (n : String) (d : α)
    (ds : String) (vd : α → Bool) (r : Registry α) (hacc : vd d = true) :
    (_register_option n d ds vd r).1 = Except.ok () ∧
    (get_option n (_register_option n d ds vd r).2).1 = Except.ok d := by
  refine ⟨by simp [_register_option, hacc], ?_⟩
  simp [_register_option, hacc, get_option, getEntry_setEntry_self]

/-- Concrete instance of `get_after_register_default`. -/
theorem get_after_register_default_witness :
    (_register_option "height" (32 : Int) "sample height option" mem_32_64
      sample_registry).1 = Except.ok () ∧
    (get_option "height" (_register_option "height" (32 : Int)
      "sample height option" mem_32_64 sample_registry).2).1 =
      Except.ok 32 :=
  get_after_register_default "height" 32 "sample height option" mem_32_64
    sample_registry rfl

/-- C7: when the validator rejects the default (its call raises),
`_register_option` fails with `InvalidDefaultError` and the registry is
exactly as before the call: no entry is created. -/
theorem register_invalid_default {α : Type} (n : String) (d : α)
    (ds : String) (vd : α → Bool) (r : Registry α) (hrej : vd d = false) :
    _register_option n d ds vd r =
      (Except.error Exn.InvalidDefaultError, r) := by
  simp [_register_option, hrej]

/-- Concrete instance of `register_invalid_default`: a default of 16
fails the membership validator. -/
theorem register_invalid_default_witness :
    _register_option "height" (16 : Int) "sample height option" mem_32_64
      sample_registry =
      (Except.error Exn.InvalidDefaultError, sample_registry) :=
  register_invalid_default "height" 16 "sample height option" mem_32_64
    sample_registry rfl

/-- C8: re-registering an existing name succeeds (no uniqueness error)
and overwrites the prior entry with the second call's default, value,
description and validator. -/
theorem register_overwrites {α : Type} (n : String) (d2 : α) (ds2 : String)
    (vd2 : α → Bool) (r : Registry α) (old : cudf.Option α)
    (_hpresent : getEntry r n = some old) (hacc : vd2 d2 = true) :
    (_register_option n d2 ds2 vd2 r).1 = Except.ok () ∧
    getEntry (_register_option n d2 ds2 vd2 r).2 n =
      some ⟨d2, d2, ds2, vd2⟩ := by
  refine ⟨by simp [_register_option, hacc], ?_⟩
  simp [_register_option, hacc, getEntry_setEntry_self]

/-- Concrete instance of `register_overwrites`: re-registering `"width"`
on the sample registry. -/
theorem register_overwrites_witness :
    (_register_option "width" (32 : Int) "second description" mem_32_64
      sample_registry).1 = Except.ok () ∧
    getEntry (_register_option "width" (32 : Int) "second description"
      mem_32_64 sample_registry).2 "width" =
      some ⟨32, 32, "second description", mem_32_64⟩ :=
  register_overwrites "width" 32 "second description" mem_32_64
    sample_registry ⟨64, 64, "sample width option", mem_32_64⟩ rfl rfl

/-- C9: `get_option` on a registered name returns the stored current
value and returns the registry exactly as it was: no entry's default,
value, description or validator changes. -/
theorem get_option_no_side_effects {α : Type} (n : String) (r : Registry α)
    (opt : cudf.Option α) (hfind : getEntry r n = some opt) :
    get_option n r = (Except.ok opt.value, r) := by
  simp [get_option, hfind]

/-- Concrete instance of `get_option_no_side_effects` on the module's
initial registry. -/
theorem get_option_no_side_effects_witness :
    get_option "default_float_bitwidth" _OPTIONS_initial =
      (Except.ok 64, _OPTIONS_initial) :=
  get_option_no_side_effects "default_float_bitwidth" _OPTIONS_initial
    ⟨64, 64, default_float_bitwidth_description, bitwidth_lambda⟩ rfl

/-- C10: frame property of a successful `set_option`: only the named
entry's `value` field changes; its default, description and validator are
kept, and every other name maps to exactly the entry it had before. -/
theorem set_option_frame {α : Type} (n : String) (v : α) (r : Registry α)
    (opt : cudf.Option α) (hfind : getEntry r n = some opt)
    (hacc : opt.validator v = true) :
    («set_option» n v r).1 = Except.ok () ∧
    getEntry («set_option» n v r).2 n =
      some ⟨opt.default, v, opt.description, opt.validator⟩ ∧
    ∀ m, m ≠ n → getEntry («set_option» n v r).2 m = getEntry r m := by
  have hset : «set_option» n v r =
      (Except.ok (), setEntry r n { opt with value := v }) := by
    simp [«set_option», hfind, hacc]
  refine ⟨by simp [hset], ?_, ?_⟩
  · simp [hset, getEntry_setEntry_self]
  · intro m hm
    simp [hset, getEntry_setEntry_of_ne r n m _ hm]

/-- Concrete instance of `set_option_frame`: setting
`"default_integer_bitwidth"` to 32 leaves `"default_float_bitwidth"`
untouched. -/
theorem set_option_frame_witness :
    ((«set_option» "default_integer_bitwidth" (32 : Int)
      _OPTIONS_initial).1 = Except.ok ()) ∧
    getEntry ((«set_option» "default_integer_bitwidth" (32 : Int)
      _OPTIONS_initial).2) "default_integer_bitwidth" =
      some ⟨64, 32, default_integer_bitwidth_description,
        bitwidth_lambda⟩ ∧
    ∀ m, m ≠ "default_integer_bitwidth" →
      getEntry ((«set_option» "default_integer_bitwidth" (32 : Int)
        _OPTIONS_initial).2) m = getEntry _OPTIONS_initial m :=
  set_option_frame "default_integer_bitwidth" 32 _OPTIONS_initial
    ⟨64, 64, default_integer_bitwidth_description, bitwidth_lambda⟩ rfl rfl
